import Mathlib

/-!
Verification of the jaundice-rate batch pipeline.

Shallow embedding of the three source files:
- `jaundice_tools.py`: the `Article` dataclass, the `JaundiceTools`
  lazy-singleton loader and the per-article task `process_article`
  mutating a pre-appended `Article` placeholder;
- `main.py`: the `LazyJaundice` loader and the variant of
  `process_article` that appends a formatted result record, driven by
  `main` over an anyio task group;
- `server.py`: the aiohttp front end `process_urls`.

External effects are modelled as explicit outcome parameters: a fetch
either returns HTML or fails in one of the classified ways (connection
error, invalid URL, timeout expiry) or with an unclassified exception
such as the HTTP error status raised by `response.raise_for_status()`;
the sanitizer either returns plaintext or raises `ArticleNotFound`.
Concurrent completion of the batch tasks is modelled by an explicit
schedule: the list of task indices in the order in which their appends
to the shared result list happen.  Python floats are modelled with
`Rat`; the single division involved is exact.  Python string
operations are re-implemented over `List Char` so that every
definition evaluates inside the kernel.
-/

/-- Python `s.endswith(suffix)`. -/
def strEndsWith (s suffix : String) : Bool :=
  suffix.data.isSuffixOf s.data

/-- Python `s.strip()`: remove whitespace from both ends. -/
def pyStrip (s : String) : String :=
  ⟨((s.data.dropWhile Char.isWhitespace).reverse.dropWhile Char.isWhitespace).reverse⟩

/-- Python `s.split(sep)` for a one-character separator `sep`;
`splitChar c "" = [""]`, matching Python. -/
def splitChar (sep : Char) (s : String) : List String :=
  (s.data.splitOnP (fun c => c = sep)).map (fun l => ⟨l⟩)

/-- The character list following the first `//` of a URL, if any. -/
def afterDoubleSlash : List Char → Option (List Char)
  | [] => none
  | '/' :: '/' :: rest => some rest
  | _ :: rest => afterDoubleSlash rest

/-- Model of `urllib.parse.urlparse(url).hostname` for the
`scheme://host[:port]/path` URLs this program handles: the text
between the authority marker `//` and the next slash, with any port
removed and the result lowercased. -/
def hostname (url : String) : String :=
  match afterDoubleSlash url.data with
  | none => ""
  | some rest =>
    ⟨((rest.takeWhile (fun c => c ≠ '/')).takeWhile (fun c => c ≠ ':')).map Char.toLower⟩

/-- The `ProcessingStatus` enum shared by `jaundice_tools.py` and
`main.py`: the four terminal classifications of one article. -/
inductive ProcessingStatus where
  | OK
  | FETCH_ERROR
  | PARSING_ERROR
  | TIMEOUT
deriving DecidableEq, Repr

/-- The `.value` attribute of the Python enum member. -/
def ProcessingStatus.value : ProcessingStatus → String
  | .OK => "OK"
  | .FETCH_ERROR => "FETCH_ERROR"
  | .PARSING_ERROR => "PARSING_ERROR"
  | .TIMEOUT => "TIMEOUT"

/-- The `Article` dataclass of `jaundice_tools.py`: `status` holds the
string value of a `ProcessingStatus`; `score`, `words_count` and
`title` default to `None`. -/
structure Article where
  status : String
  url : String
  score : Option Rat := none
  words_count : Option Nat := none
  title : Option String := none
deriving DecidableEq, Repr

/-- Outcome of one `fetch(session, url)` call inside its
`async with timeout(...)` block: the two classified aiohttp failures
(`ClientConnectorError`, `InvalidURL`), expiry of the timeout
(`asyncio.TimeoutError`), or an unclassified exception, represented
by the `aiohttp.ClientResponseError` that `response.raise_for_status()`
raises on a non-2xx reply. -/
inductive FetchOutcome where
  | ok (html : String)
  | connError
  | invalidURL
  | timeout
  | httpError
deriving DecidableEq, Repr

/-- Outcome of `adapters.inosmi_ru.sanitize(html, plaintext=True)`:
either plaintext or the `adapters.ArticleNotFound` exception. -/
inductive SanitizeOutcome where
  | ok (text : String)
  | notFound
deriving DecidableEq, Repr

/-- Exceptions that can escape a modelled computation. -/
inductive PyExn where
  | invalidURL
  | httpError
  | emptyDict
deriving DecidableEq, Repr

/-- Modelled from the spec: `text_tools.calculate_jaundice_rate` is
imported by both task variants but `text_tools.py` is not part of this
repository snapshot.  Per the spec, the scorer returns the fraction of
tokens that belong to the charged lexicon and returns the sentinel
`0.0` instead of raising when the token sequence is empty. -/
def calculate_jaundice_rate (words : List String) (charged_words : List String) : Rat :=
  if words.length = 0 then 0
  else ((words.filter (fun w => charged_words.contains w)).length : Rat) / (words.length : Rat)

/-- The per-article task of `jaundice_tools.py` (line 193).  The task
first appends a placeholder `Article` with `status=FETCH_ERROR` and the
input title to the shared result list and then mutates that same
object, so the final state of the appended entry is returned together
with the exception, if any, that escaped the task body.  `sanitize`
and `split_by_words` are the external collaborators applied to the
fetched HTML and the cleaned text. -/
def processArticleJT (sanitize : String → SanitizeOutcome)
    (split_by_words : String → List String)
    (charged_words : List String) (url : String) (title : Option String)
    (fetch : FetchOutcome) : Article × Option PyExn :=
  let article : Article := { status := ProcessingStatus.FETCH_ERROR.value, url := url, title := title }
  match fetch with
  | .connError =>
    ({ article with status := ProcessingStatus.FETCH_ERROR.value, title := some "URL not exists" }, none)
  | .invalidURL =>
    ({ article with status := ProcessingStatus.FETCH_ERROR.value, title := some "URL not exists" }, none)
  | .timeout =>
    ({ article with status := ProcessingStatus.TIMEOUT.value }, none)
  | .httpError =>
    (article, some PyExn.httpError)
  | .ok html =>
    match sanitize html with
    | .notFound =>
      ({ article with status := ProcessingStatus.PARSING_ERROR.value,
                      title := some ("Статья на " ++ hostname url) }, none)
    | .ok cleaned_text =>
      let words := split_by_words cleaned_text
      ({ article with score := some (calculate_jaundice_rate words charged_words),
                      words_count := some words.length,
                      status := ProcessingStatus.OK.value }, none)

/-- The four format arguments of `RESULT_TEMPLATE` in `main.py`: the
record that `append_to_result` renders into the string appended to the
shared result list. -/
structure ResultRecord where
  title : String
  status : String
  score : Option Rat
  words_count : Option Nat
deriving DecidableEq, Repr

/-- The per-article task of `main.py` (line 107).  Unlike the
`jaundice_tools.py` variant it appends nothing up front; each return
path calls `append_to_result` once, and only `ClientConnectorError`,
`TimeoutError` and `ArticleNotFound` are caught, so `InvalidURL` and
the unclassified HTTP error propagate with nothing appended. -/
def processArticleMain (sanitize : String → SanitizeOutcome)
    (split_by_words : String → List String)
    (charged_words : List String) (url title : String)
    (fetch : FetchOutcome) : Except PyExn ResultRecord :=
  match fetch with
  | .connError =>
    Except.ok { title := "URL not exists", status := ProcessingStatus.FETCH_ERROR.value,
                score := none, words_count := none }
  | .invalidURL => Except.error PyExn.invalidURL
  | .timeout =>
    Except.ok { title := title, status := ProcessingStatus.TIMEOUT.value,
                score := none, words_count := none }
  | .httpError => Except.error PyExn.httpError
  | .ok html =>
    match sanitize html with
    | .notFound =>
      Except.ok { title := "Статья на " ++ hostname url,
                  status := ProcessingStatus.PARSING_ERROR.value,
                  score := none, words_count := none }
    | .ok cleaned_text =>
      let split_text := split_by_words cleaned_text
      Except.ok { title := title, status := ProcessingStatus.OK.value,
                  score := some (calculate_jaundice_rate split_text charged_words),
                  words_count := some split_text.length }

/-- A zip member as seen by both loaders after decoding: its name in
the archive and its lines decoded from UTF-8 (before `strip`). -/
abbrev ZipMember : Type := String × List String

/-- `JaundiceTools.get_charged_words` (jaundice_tools.py line 169) on
first call: for every member whose name ends in `.txt` it builds the
stripped word list and then ASSIGNS it to `cls._charged_words`
(replacing, not extending, the accumulator), and finally raises
`JaundiceToolsException` when the resulting list is empty. -/
def get_charged_words_JT (zip_members : List ZipMember) : Except PyExn (List String) :=
  let charged := zip_members.foldl
    (fun acc m => if strEndsWith m.1 ".txt" then m.2.map pyStrip else acc) []
  if charged.length = 0 then Except.error PyExn.emptyDict else Except.ok charged

/-- `LazyJaundice.get_charged_words` (main.py line 82) on first call:
extends the accumulator with the raw lines of every `.txt` member,
then decodes and strips each line.  There is no emptiness check; the
result is always returned, hence the always-`ok` codomain. -/
def get_charged_words_main (zip_members : List ZipMember) : Except PyExn (List String) :=
  let raw := zip_members.foldl
    (fun acc m => if strEndsWith m.1 ".txt" then acc ++ m.2 else acc) []
  Except.ok (raw.map pyStrip)

/-- One entry of `TEST_ARTICLES` together with the behaviour of the
external fetch for its URL. -/
structure TaskInput where
  url : String
  title : String
  fetch : FetchOutcome
deriving DecidableEq, Repr

/-- The batch entry point `main` of `main.py` (line 156): one task per
article is started over a shared session and each task appends its
result to the shared list `result` when it completes.  `schedule`
lists the task indices in completion order; a task whose body raised
an uncaught exception appends nothing. -/
def mainBatch (sanitize : String → SanitizeOutcome)
    (split_by_words : String → List String)
    (charged_words : List String)
    (tasks : List TaskInput) (schedule : List Nat) : List ResultRecord :=
  schedule.filterMap (fun i =>
    (tasks[i]?).bind (fun t =>
      (processArticleMain sanitize split_by_words charged_words t.url t.title t.fetch).toOption))

/-- The `{"error": ...}` JSON body built by `prepare_error` in
`server.py`. -/
structure ErrorBody where
  error : String
deriving DecidableEq, Repr

/-- `server.py` `prepare_error`: `json.dumps` of the one-key dict is
modelled structurally. -/
def prepare_error (error_txt : String) : ErrorBody :=
  { error := error_txt }

/-- `server.py` `MAX_URLS_COUNT`. -/
def MAX_URLS_COUNT : Nat := 10

/-- `ERROR_MESSAGE_TEMPLATE.format(REQ_KEY)` of `server.py`. -/
def ERROR_MESSAGE_KEY : String := "there are no \"urls\" key in query string"

/-- `ERROR_MESSAGE_COUNT` of `server.py`. -/
def ERROR_MESSAGE_COUNT : String := "too many urls in request, should be 10 or less"

/-- The two response shapes `process_urls` can produce: an
`HTTPBadRequest` (status 400, a client error) carrying an
`application/json` error body, or a 200 `json_response` carrying the
list of per-article results serialized by `dataclasses.asdict`. -/
inductive HttpResponse where
  | badRequest (body : ErrorBody)
  | jsonOk (results : List Article)
deriving DecidableEq, Repr

/-- `server.py` `process_urls` (line 20).  `query_urls` is
`request.query.get('urls')`.  The imported batch entry point `process`
of the deployed `main` module is not part of this snapshot, so it is
abstracted as a function from the parsed URL list to the list of
results it returns. -/
def process_urls (process : List String → List Article)
    (query_urls : Option String) : HttpResponse :=
  match query_urls with
  | none => HttpResponse.badRequest (prepare_error ERROR_MESSAGE_KEY)
  | some value =>
    let urls := splitChar ',' value
    if urls.length > MAX_URLS_COUNT then
      HttpResponse.badRequest (prepare_error ERROR_MESSAGE_COUNT)
    else
      HttpResponse.jsonOk (process urls)

/-- C3: the Scorer returns the fraction of tokens found in the
lexicon, always a value in the interval from 0 to 1, and returns the
sentinel 0 on an empty token sequence instead of raising. -/
theorem calculate_jaundice_rate_spec (words charged_words : List String) :
    calculate_jaundice_rate [] charged_words = 0 ∧
    0 ≤ calculate_jaundice_rate words charged_words ∧
    calculate_jaundice_rate words charged_words ≤ 1 := by
  refine ⟨rfl, ?_, ?_⟩
  · unfold calculate_jaundice_rate
    split
    · exact le_refl 0
    · positivity
  · unfold calculate_jaundice_rate
    split
    · norm_num
    · rename_i h
      have hl : 0 < (words.length : Rat) := by
        exact_mod_cast Nat.pos_of_ne_zero h
      rw [div_le_one hl]
      exact_mod_cast List.length_filter_le _ _

/-- C10: on every execution path of the jaundice_tools per-article
task — success, classified failure, or escaping exception — the `url`
field of the appended result equals the input url unchanged. -/
theorem processArticleJT_preserves_url (san : String → SanitizeOutcome)
    (sp : String → List String) (cw : List String) (url : String)
    (title : Option String) (fetch : FetchOutcome) :
    (processArticleJT san sp cw url title fetch).1.url = url := by
  cases fetch with
  | ok html => cases hs : san html <;> simp [processArticleJT, hs]
  | connError => rfl
  | invalidURL => rfl
  | timeout => rfl
  | httpError => rfl

/-- C5: when the timeout bound on the fetch stage expires, both task
variants terminate with status TIMEOUT, the title unchanged from the
input title, no exception escaping, and no retry (the fetch outcome is
consumed exactly once). -/
theorem timeout_fetch_stage (san : String → SanitizeOutcome)
    (sp : String → List String) (cw : List String) (url : String)
    (titleJT : Option String) (title : String) :
    processArticleJT san sp cw url titleJT FetchOutcome.timeout =
      ({ status := ProcessingStatus.TIMEOUT.value, url := url, title := titleJT }, none) ∧
    processArticleMain san sp cw url title FetchOutcome.timeout =
      Except.ok { title := title, status := ProcessingStatus.TIMEOUT.value,
                  score := none, words_count := none } :=
  ⟨rfl, rfl⟩

/-- C4 counterexample: in the main.py task variant a malformed URL
raises `aiohttp.InvalidURL`, which is not in that variant's except
clause, so the exception propagates instead of producing a FETCH_ERROR
result titled "URL not exists". -/
theorem invalid_url_propagates_main :
    processArticleMain (fun _ => SanitizeOutcome.ok "") (fun _ => []) []
      "https://inosmi%.corrupted/x" "corrupted" FetchOutcome.invalidURL =
      Except.error PyExn.invalidURL :=
  rfl

/-- C4 amended: the jaundice_tools variant converts both a connection
failure and a malformed URL to FETCH_ERROR with title "URL not
exists" without propagating; the main.py variant does so only for the
connection failure, while a malformed URL propagates out of the
task. -/
theorem fetch_error_handling (san : String → SanitizeOutcome)
    (sp : String → List String) (cw : List String) (url : String)
    (titleJT : Option String) (title : String) :
    processArticleJT san sp cw url titleJT FetchOutcome.connError =
      ({ status := ProcessingStatus.FETCH_ERROR.value, url := url,
         title := some "URL not exists" }, none) ∧
    processArticleJT san sp cw url titleJT FetchOutcome.invalidURL =
      ({ status := ProcessingStatus.FETCH_ERROR.value, url := url,
         title := some "URL not exists" }, none) ∧
    processArticleMain san sp cw url title FetchOutcome.connError =
      Except.ok { title := "URL not exists", status := ProcessingStatus.FETCH_ERROR.value,
                  score := none, words_count := none } ∧
    processArticleMain san sp cw url title FetchOutcome.invalidURL =
      Except.error PyExn.invalidURL :=
  ⟨rfl, rfl, rfl, rfl⟩

/-- C6 counterexample: an exception outside the classified set — here
the HTTP error status raised by `response.raise_for_status()` —
escapes the task body in both variants instead of being converted to a
terminal failure status at the task boundary. -/
theorem unclassified_exception_escapes :
    (processArticleJT (fun _ => SanitizeOutcome.ok "") (fun _ => []) []
      "https://inosmi.ru/politic/x" (some "t") FetchOutcome.httpError).2 =
      some PyExn.httpError ∧
    processArticleMain (fun _ => SanitizeOutcome.ok "") (fun _ => []) []
      "https://inosmi.ru/politic/x" "t" FetchOutcome.httpError =
      Except.error PyExn.httpError :=
  ⟨rfl, rfl⟩

/-- C6 amended: only the classified exceptions (connection error,
invalid URL in the jaundice_tools variant, timeout, article not
recognized) are caught and converted to terminal statuses; an
unclassified exception propagates out of the task body — the
jaundice_tools variant then still leaves its pre-appended placeholder
with status FETCH_ERROR and the input title in the result list, while
the main.py variant appends nothing. -/
theorem task_exception_boundary (san : String → SanitizeOutcome)
    (sp : String → List String) (cw : List String) (url : String)
    (titleJT : Option String) (title : String) (html : String) :
    (processArticleJT san sp cw url titleJT FetchOutcome.connError).2 = none ∧
    (processArticleJT san sp cw url titleJT FetchOutcome.invalidURL).2 = none ∧
    (processArticleJT san sp cw url titleJT FetchOutcome.timeout).2 = none ∧
    (processArticleJT san sp cw url titleJT (FetchOutcome.ok html)).2 = none ∧
    processArticleJT san sp cw url titleJT FetchOutcome.httpError =
      ({ status := ProcessingStatus.FETCH_ERROR.value, url := url, title := titleJT },
       some PyExn.httpError) ∧
    processArticleMain san sp cw url title FetchOutcome.httpError =
      Except.error PyExn.httpError := by
  refine ⟨rfl, rfl, rfl, ?_, rfl, rfl⟩
  cases hs : san html <;> simp [processArticleJT, hs]

/-- C2: in both task variants the score and words_count fields of a
completed result are present exactly when the status is OK, and on
every result whose status is not OK — FETCH_ERROR, TIMEOUT or
PARSING_ERROR — both fields are None.  For the jaundice_tools variant
the invariant also holds for the placeholder left behind by an
escaping exception. -/
theorem score_fields_iff_ok (san : String → SanitizeOutcome)
    (sp : String → List String) (cw : List String) (url : String)
    (titleJT : Option String) (title : String) (fetch : FetchOutcome) :
    ((processArticleJT san sp cw url titleJT fetch).1.status = ProcessingStatus.OK.value ↔
      ((processArticleJT san sp cw url titleJT fetch).1.score.isSome ∧
       (processArticleJT san sp cw url titleJT fetch).1.words_count.isSome)) ∧
    ((processArticleJT san sp cw url titleJT fetch).1.status ≠ ProcessingStatus.OK.value ↔
      ((processArticleJT san sp cw url titleJT fetch).1.score = none ∧
       (processArticleJT san sp cw url titleJT fetch).1.words_count = none)) ∧
    (∀ r, processArticleMain san sp cw url title fetch = Except.ok r →
      ((r.status = ProcessingStatus.OK.value ↔ (r.score.isSome ∧ r.words_count.isSome)) ∧
       (r.status ≠ ProcessingStatus.OK.value ↔ (r.score = none ∧ r.words_count = none)))) := by
  refine ⟨?_, ?_, ?_⟩
  · cases fetch with
    | ok html =>
      cases hs : san html <;> simp [processArticleJT, hs, ProcessingStatus.value]
    | connError => simp [processArticleJT, ProcessingStatus.value]
    | invalidURL => simp [processArticleJT, ProcessingStatus.value]
    | timeout => simp [processArticleJT, ProcessingStatus.value]
    | httpError => simp [processArticleJT, ProcessingStatus.value]
  · cases fetch with
    | ok html =>
      cases hs : san html <;> simp [processArticleJT, hs, ProcessingStatus.value]
    | connError => simp [processArticleJT, ProcessingStatus.value]
    | invalidURL => simp [processArticleJT, ProcessingStatus.value]
    | timeout => simp [processArticleJT, ProcessingStatus.value]
    | httpError => simp [processArticleJT, ProcessingStatus.value]
  · intro r hr
    cases fetch with
    | ok html =>
      cases hs : san html <;> simp [processArticleMain, hs] at hr <;>
        simp [← hr, ProcessingStatus.value]
    | connError =>
      simp [processArticleMain] at hr
      simp [← hr, ProcessingStatus.value]
    | invalidURL => simp [processArticleMain] at hr
    | timeout =>
      simp [processArticleMain] at hr
      simp [← hr, ProcessingStatus.value]
    | httpError => simp [processArticleMain] at hr

/-- C2 witness: the invariant evaluated on a concrete successful run
(status OK, both fields set) and a concrete timed-out run (status
TIMEOUT, both fields None) of both variants. -/
theorem score_fields_iff_ok_witness :
    ((processArticleJT (fun _ => SanitizeOutcome.ok "") (fun _ => ["w"]) []
        "https://inosmi.ru/x" (some "t") (FetchOutcome.ok "h")).1.status =
          ProcessingStatus.OK.value ↔
      ((processArticleJT (fun _ => SanitizeOutcome.ok "") (fun _ => ["w"]) []
          "https://inosmi.ru/x" (some "t") (FetchOutcome.ok "h")).1.score.isSome ∧
       (processArticleJT (fun _ => SanitizeOutcome.ok "") (fun _ => ["w"]) []
          "https://inosmi.ru/x" (some "t") (FetchOutcome.ok "h")).1.words_count.isSome)) ∧
    ((processArticleJT (fun _ => SanitizeOutcome.ok "") (fun _ => ["w"]) []
        "https://inosmi.ru/x" (some "t") FetchOutcome.timeout).1.status ≠
          ProcessingStatus.OK.value ↔
      ((processArticleJT (fun _ => SanitizeOutcome.ok "") (fun _ => ["w"]) []
          "https://inosmi.ru/x" (some "t") FetchOutcome.timeout).1.score = none ∧
       (processArticleJT (fun _ => SanitizeOutcome.ok "") (fun _ => ["w"]) []
          "https://inosmi.ru/x" (some "t") FetchOutcome.timeout).1.words_count = none)) ∧
    ((({ title := "t", status := ProcessingStatus.OK.value,
         score := some (calculate_jaundice_rate ["w"] []),
         words_count := some 1 } : ResultRecord).status = ProcessingStatus.OK.value ↔
       ((some (calculate_jaundice_rate ["w"] [])).isSome ∧ (some 1 : Option Nat).isSome)) ∧
     (({ title := "t", status := ProcessingStatus.OK.value,
         score := some (calculate_jaundice_rate ["w"] []),
         words_count := some 1 } : ResultRecord).status ≠ ProcessingStatus.OK.value ↔
       ((some (calculate_jaundice_rate ["w"] []) : Option Rat) = none ∧
        (some 1 : Option Nat) = none))) ∧
    ((({ title := "t", status := ProcessingStatus.TIMEOUT.value,
         score := none, words_count := none } : ResultRecord).status =
           ProcessingStatus.OK.value ↔
       ((none : Option Rat).isSome ∧ (none : Option Nat).isSome)) ∧
     (({ title := "t", status := ProcessingStatus.TIMEOUT.value,
         score := none, words_count := none } : ResultRecord).status ≠
           ProcessingStatus.OK.value ↔
       ((none : Option Rat) = none ∧ (none : Option Nat) = none))) :=
  ⟨(score_fields_iff_ok (fun _ => SanitizeOutcome.ok "") (fun _ => ["w"]) []
      "https://inosmi.ru/x" (some "t") "t" (FetchOutcome.ok "h")).1,
   (score_fields_iff_ok (fun _ => SanitizeOutcome.ok "") (fun _ => ["w"]) []
      "https://inosmi.ru/x" (some "t") "t" FetchOutcome.timeout).2.1,
   (score_fields_iff_ok (fun _ => SanitizeOutcome.ok "") (fun _ => ["w"]) []
      "https://inosmi.ru/x" (some "t") "t" (FetchOutcome.ok "h")).2.2 _ rfl,
   (score_fields_iff_ok (fun _ => SanitizeOutcome.ok "") (fun _ => ["w"]) []
      "https://inosmi.ru/x" (some "t") "t" FetchOutcome.timeout).2.2 _ rfl⟩

/-- C9: the HTTP front end rejects a request with no urls query
parameter, and a request whose comma-separated list is longer than
MAX_URLS_COUNT, with an HTTPBadRequest carrying a structured
one-field error body; on a valid request it returns the JSON array of
the batch results for the parsed URL list. -/
theorem process_urls_spec (process : List String → List Article) :
    process_urls process none = HttpResponse.badRequest { error := ERROR_MESSAGE_KEY } ∧
    ∀ value : String,
      ((splitChar ',' value).length > MAX_URLS_COUNT →
        process_urls process (some value) =
          HttpResponse.badRequest { error := ERROR_MESSAGE_COUNT }) ∧
      ((splitChar ',' value).length ≤ MAX_URLS_COUNT →
        process_urls process (some value) =
          HttpResponse.jsonOk (process (splitChar ',' value))) := by
  refine ⟨rfl, fun value => ⟨fun h => ?_, fun h => ?_⟩⟩
  · simp only [process_urls, prepare_error]
    rw [if_pos h]
  · simp only [process_urls, prepare_error]
    rw [if_neg (Nat.not_lt.mpr h)]

/-- C9 witness: the three branches evaluated on concrete requests — a
missing parameter, an eleven-URL list, and a two-URL list. -/
theorem process_urls_spec_witness :
    process_urls (fun _ => []) none = HttpResponse.badRequest { error := ERROR_MESSAGE_KEY } ∧
    process_urls (fun _ => []) (some "a,a,a,a,a,a,a,a,a,a,a") =
      HttpResponse.badRequest { error := ERROR_MESSAGE_COUNT } ∧
    process_urls (fun _ => []) (some "u1,u2") = HttpResponse.jsonOk [] :=
  ⟨(process_urls_spec (fun _ => [])).1,
   ((process_urls_spec (fun _ => [])).2 "a,a,a,a,a,a,a,a,a,a,a").1 (by decide),
   ((process_urls_spec (fun _ => [])).2 "u1,u2").2 (by decide)⟩

/-- C7 counterexample: the main.py lexicon accessor performs no
emptiness check — on a dictionary source with no word-list members it
returns the empty lexicon without any error, so the batch pipeline
would run and score every article 0. -/
theorem empty_lexicon_silent_main :
    get_charged_words_main [] = Except.ok [] :=
  rfl

/-- C7 amended: the jaundice_tools accessor raises
JaundiceToolsException instead of ever returning an empty word list,
but the main.py accessor never fails and returns whatever was loaded,
including the empty list. -/
theorem empty_lexicon_check (zip_members : List ZipMember) :
    (∀ words, get_charged_words_JT zip_members = Except.ok words → words ≠ []) ∧
    (∃ words, get_charged_words_main zip_members = Except.ok words) := by
  constructor
  · intro words hw
    simp only [get_charged_words_JT] at hw
    split at hw
    · exact absurd hw (by simp)
    · rename_i hlen
      injection hw with h
      intro hnil
      exact hlen (by rw [h, hnil]; rfl)
  · exact ⟨_, rfl⟩

/-- C7 witness: the amended theorem applied to a one-member
dictionary source. -/
theorem empty_lexicon_check_witness :
    (["w"] : List String) ≠ [] ∧
    (∃ words, get_charged_words_main [("a.txt", ["w"])] = Except.ok words) :=
  ⟨(empty_lexicon_check [("a.txt", ["w"])]).1 ["w"] rfl,
   (empty_lexicon_check [("a.txt", ["w"])]).2⟩

/-- C8 counterexample: the jaundice_tools loader assigns (rather than
extends) its accumulator inside the member loop, so with two word-list
members only the words of the last one survive; and the main.py loader
keeps duplicate words, so the result is not a deduplicated set. -/
theorem lexicon_loader_last_member_only :
    get_charged_words_JT [("a.txt", ["alpha"]), ("b.txt", ["beta"])] =
      Except.ok ["beta"] ∧
    get_charged_words_main [("c.txt", ["w", "w"])] = Except.ok ["w", "w"] :=
  ⟨rfl, rfl⟩

/-- C8 amended: the main.py loader concatenates the stripped lines of
every .txt member, in order and without deduplication; the
jaundice_tools loader keeps only the stripped lines of the last .txt
member (or fails when that member is empty), discarding every earlier
member. -/
theorem lexicon_loader_amended (zip_members : List ZipMember) (m : ZipMember)
    (hm : strEndsWith m.1 ".txt" = true) :
    get_charged_words_JT (zip_members ++ [m]) =
      (if (m.2.map pyStrip).length = 0 then Except.error PyExn.emptyDict
       else Except.ok (m.2.map pyStrip)) ∧
    get_charged_words_main zip_members =
      Except.ok
        (((zip_members.filter (fun x => strEndsWith x.1 ".txt")).map
            (fun x => x.2)).flatten.map pyStrip) := by
  constructor
  · simp [get_charged_words_JT, List.foldl_append, hm]
  · simp only [get_charged_words_main]
    congr 1
    have key : ∀ (l : List ZipMember) (acc : List String),
        l.foldl (fun a x => if strEndsWith x.1 ".txt" then a ++ x.2 else a) acc =
          acc ++ ((l.filter (fun x => strEndsWith x.1 ".txt")).map (fun x => x.2)).flatten := by
      intro l
      induction l with
      | nil => intro acc; simp
      | cons x t ih =>
        intro acc
        by_cases h : strEndsWith x.1 ".txt" = true
        · simp [h, ih, List.append_assoc]
        · simp [List.filter_cons, h, ih]
    rw [key]
    simp

/-- C8 witness: the amended characterization applied to a two-member
source whose last member is nonempty. -/
theorem lexicon_loader_amended_witness :
    get_charged_words_JT [("one.txt", ["x"]), ("two.txt", ["y", "z"])] =
      Except.ok ["y", "z"] ∧
    get_charged_words_main [("one.txt", ["x"])] = Except.ok ["x"] :=
  lexicon_loader_amended [("one.txt", ["x"])] ("two.txt", ["y", "z"]) (by decide)

/-- Helper: a filterMap whose function is some-valued on every element
keeps the length of the list. -/
theorem filterMap_length_of_isSome {α β : Type} (f : α → Option β) (l : List α)
    (h : ∀ a ∈ l, (f a).isSome) : (l.filterMap f).length = l.length := by
  induction l with
  | nil => rfl
  | cons x t ih =>
    obtain ⟨b, hb⟩ := Option.isSome_iff_exists.mp (h x (List.mem_cons_self x t))
    simp [List.filterMap_cons, hb,
      ih (fun a ha => h a (List.mem_cons_of_mem x ha))]

/-- Helper: under the same hypothesis, indexing into the filterMap is
indexing into the list followed by the function. -/
theorem filterMap_getElem_of_isSome {α β : Type} (f : α → Option β) (l : List α)
    (h : ∀ a ∈ l, (f a).isSome) (j : Nat) :
    (l.filterMap f)[j]? = (l[j]?).bind f := by
  induction l generalizing j with
  | nil => simp
  | cons x t ih =>
    obtain ⟨b, hb⟩ := Option.isSome_iff_exists.mp (h x (List.mem_cons_self x t))
    cases j with
    | zero => simp [List.filterMap_cons, hb]
    | succ n =>
      simp [List.filterMap_cons, hb,
        ih (fun a ha => h a (List.mem_cons_of_mem x ha)) n]

/-- C1 counterexample: a batch of two requests whose tasks complete in
reverse order.  Each task appends its record to the shared list on
completion, so position 0 of the output holds the record of request 1
(title "B"), not of request 0 (title "A"): output position i does not
correspond to input position i. -/
theorem batch_order_counterexample :
    mainBatch (fun _ => SanitizeOutcome.ok "") (fun _ => []) []
      [⟨"https://u0", "A", FetchOutcome.timeout⟩,
       ⟨"https://u1", "B", FetchOutcome.timeout⟩] [1, 0] =
      [{ title := "B", status := ProcessingStatus.TIMEOUT.value,
         score := none, words_count := none },
       { title := "A", status := ProcessingStatus.TIMEOUT.value,
         score := none, words_count := none }] ∧
    ("B" : String) ≠ "A" :=
  ⟨rfl, by decide⟩

/-- C1 amended: when every task completes without an unclassified
exception and the completion schedule is a permutation of the task
indices, the batch produces exactly N results, but in completion
order: the record at output position j is the one produced by the
task at input position schedule[j], so positional correspondence with
the inputs holds only when the completion order equals the input
order. -/
theorem mainBatch_completion_order (san : String → SanitizeOutcome)
    (sp : String → List String) (cw : List String)
    (tasks : List TaskInput) (schedule : List Nat)
    (hperm : List.Perm schedule (List.range tasks.length))
    (hok : ∀ t ∈ tasks, ∃ r,
      processArticleMain san sp cw t.url t.title t.fetch = Except.ok r) :
    (mainBatch san sp cw tasks schedule).length = tasks.length ∧
    ∀ j : Nat,
      (mainBatch san sp cw tasks schedule)[j]? =
        (schedule[j]?).bind (fun i => (tasks[i]?).bind (fun t =>
          (processArticleMain san sp cw t.url t.title t.fetch).toOption)) := by
  have hsome : ∀ i ∈ schedule,
      ((tasks[i]?).bind (fun t =>
        (processArticleMain san sp cw t.url t.title t.fetch).toOption)).isSome := by
    intro i hi
    have hilt : i < tasks.length :=
      List.mem_range.mp (hperm.mem_iff.mp hi)
    obtain ⟨r, hr⟩ := hok (tasks[i]) (tasks.getElem_mem hilt)
    rw [List.getElem?_eq_getElem hilt]
    simp [hr, Except.toOption]
  constructor
  · simp only [mainBatch]
    rw [filterMap_length_of_isSome _ _ hsome, hperm.length_eq, List.length_range]
  · intro j
    simp only [mainBatch]
    exact filterMap_getElem_of_isSome _ _ hsome j

/-- C1 witness: the amended theorem applied to a one-task batch with
the identity schedule. -/
theorem mainBatch_completion_order_witness :
    (mainBatch (fun _ => SanitizeOutcome.ok "") (fun _ => []) []
        [⟨"https://u0", "A", FetchOutcome.timeout⟩] [0]).length = 1 ∧
    ∀ j : Nat,
      (mainBatch (fun _ => SanitizeOutcome.ok "") (fun _ => []) []
          [⟨"https://u0", "A", FetchOutcome.timeout⟩] [0])[j]? =
        (([0] : List Nat)[j]?).bind (fun i =>
          (([⟨"https://u0", "A", FetchOutcome.timeout⟩] : List TaskInput)[i]?).bind (fun t =>
            (processArticleMain (fun _ => SanitizeOutcome.ok "") (fun _ => []) []
                t.url t.title t.fetch).toOption)) :=
  mainBatch_completion_order _ _ _ _ _
    (by rw [List.length_singleton]; decide)
    (fun t ht => by rw [List.mem_singleton] at ht; subst ht; exact ⟨_, rfl⟩)
